import Mathlib

/-!
Shallow embedding of the scoring and matching engine of `ResumeParser.py`
(helpers `normalize_degree`, `compute_field_relevance`, `degree_match`,
`experience_match`, `compute_experience_breakdown`, the skill-score
extraction and final-score combination of `candidate_job_matching`, and the
JSON-degradation behaviour of the two extraction nodes).

Numbers are modelled as exact rationals (`ℚ`).  Python `round(x, n)` is
round-half-to-even on the scaled value, modelled by `roundTo`.  Python's
substring test `x in t` is modelled by `strIn`; `str.lower` by `strLower`,
`str.strip` by `strStrip` (list-based so that the kernel can evaluate them;
the inputs of interest are ASCII), `c.isdigit()` by `Char.isDigit`.  A
Python exception is modelled by `Option.none`.
-/

namespace ResumeParser

/-- Round-half-to-even to the nearest integer (Python `round` on exact values). -/
def roundHalfEven (x : ℚ) : ℤ :=
  if x - ⌊x⌋ < 1/2 then ⌊x⌋
  else if 1/2 < x - ⌊x⌋ then ⌊x⌋ + 1
  else if ⌊x⌋ % 2 = 0 then ⌊x⌋ else ⌊x⌋ + 1

/-- Python `round(x, p)` read over exact rationals. -/
def roundTo (p : ℕ) (x : ℚ) : ℚ :=
  (roundHalfEven (x * 10 ^ p) : ℚ) / 10 ^ p

/-- Python `str.lower()` (ASCII). -/
def strLower (s : String) : String := String.mk (s.data.map Char.toLower)

/-- Python `str.strip()`: whitespace removed from both ends. -/
def strStrip (s : String) : String :=
  String.mk (((s.data.dropWhile Char.isWhitespace).reverse.dropWhile
    Char.isWhitespace).reverse)

/-- Character-list analogue of `List.isPrefixOf` (kept local and executable). -/
def charsPre : List Char → List Char → Bool
  | [], _ => true
  | _ :: _, [] => false
  | a :: as, b :: bs => a == b && charsPre as bs

/-- Does the first list occur as a contiguous sublist of the second? -/
def charsSub (n : List Char) : List Char → Bool
  | [] => charsPre n []
  | b :: bs => charsPre n (b :: bs) || charsSub n bs

/-- Python's substring containment `needle in hay`. -/
def strIn (needle hay : String) : Bool :=
  charsSub needle.data hay.data

/-- Value of a digit string (the digits are ASCII `0`-`9`). -/
def natOfDigits (cs : List Char) : ℕ :=
  cs.foldl (fun a c => 10 * a + (c.toNat - 48)) 0

/-- Synonyms tested for the "bachelor" level (source line 65). -/
def bachelorSyns : List String :=
  ["b.tech", "btech", "b tech", "b.e", "be", "bachelor"]

/-- Synonyms tested for the "master" level (source line 67). -/
def masterSyns : List String :=
  ["m.tech", "mtech", "m tech", "m.e", "me", "master", "msc", "ms"]

/-- Synonyms tested for the "phd" level (source line 69). -/
def phdSyns : List String :=
  ["phd", "ph.d", "doctor", "doctorate", "doctoral"]

/-- Embedding of `normalize_degree` (source lines 60-74). -/
def normalize_degree (text : String) : String :=
  if text = "" then "unknown"
  else
    let t := strLower text
    if bachelorSyns.any (fun x => strIn x t) then "bachelor"
    else if masterSyns.any (fun x => strIn x t) then "master"
    else if phdSyns.any (fun x => strIn x t) then "phd"
    else if strIn "diploma" t then "diploma"
    else "unknown"

/-- Fields counted as relevant by `compute_field_relevance` (source lines 82-86). -/
def RELEVANT_FIELDS : List String :=
  ["computer", "cs", "cse", "it", "information technology",
   "ai", "ml", "data", "data science", "ds",
   "ece", "eee", "electronics", "csbs"]

/-- Embedding of `compute_field_relevance` (source lines 76-90). -/
def compute_field_relevance (candidate_stream jd_field_req : String) : ℚ :=
  if jd_field_req = "" ∨ strStrip jd_field_req = "" then 1
  else if RELEVANT_FIELDS.any (fun term => strIn term (strLower candidate_stream))
    then 0.9
  else 0.5

/-- Level score chain of `degree_match` (source lines 96-107), named so the
case analysis can be reused in proofs. -/
def level_score_of (cand_level jd_level : String) : ℚ :=
  if cand_level = jd_level then 1
  else if cand_level = "master" ∧ jd_level = "bachelor" then 1
  else if cand_level = "bachelor" ∧ jd_level = "master" then 0.6
  else if cand_level = "diploma" ∧ jd_level = "bachelor" then 0.5
  else 0.4

/-- Embedding of `degree_match` (source lines 92-111). -/
def degree_match (candidate_degree candidate_stream jd_required : String) : ℚ :=
  if jd_required = "" then 1
  else
    let cand_level := normalize_degree candidate_degree
    let jd_level := normalize_degree jd_required
    let level_score := level_score_of cand_level jd_level
    let field_score := compute_field_relevance candidate_stream jd_required
    roundTo 3 (0.7 * level_score + 0.3 * field_score)

/-- Python `int("".join([c for c in jd_exp if c.isdigit()]))`:
`none` models the `ValueError` raised on an empty digit string. -/
def parseIntDigits (s : String) : Option ℕ :=
  let ds := s.data.filter Char.isDigit
  if ds = [] then none else some (natOfDigits ds)

/-- Embedding of `experience_match` (source lines 114-127). -/
def experience_match (candidate_exp_years : ℚ) (jd_exp : String) : ℚ :=
  if jd_exp = "" then 1
  else
    match parseIntDigits jd_exp with
    | none => 1
    | some required =>
      if (required : ℚ) ≤ candidate_exp_years then 1
      else if (required : ℚ) - 1 ≤ candidate_exp_years then 0.6
      else 0.2

/-- One entry of the candidate's `experience` list: the fields read by
`compute_experience_breakdown` (source lines 141-143). -/
structure ExpRecord where
  type_ : String
  duration_months : ℚ

/-- Monthly accumulators of the loop of `compute_experience_breakdown`
(source lines 130-134). -/
structure Buckets where
  internship : ℚ
  apprentice : ℚ
  industry : ℚ
  part_time : ℚ
  freelance : ℚ

/-- One iteration of the loop of `compute_experience_breakdown`
(source lines 141-155). -/
def bucketStep (s : Buckets) (e : ExpRecord) : Buckets :=
  let months := e.duration_months
  let exp_type := strLower e.type_
  if exp_type = "internship" then { s with internship := s.internship + months }
  else if exp_type = "apprentice" then { s with apprentice := s.apprentice + months }
  else if exp_type = "full time" then { s with industry := s.industry + months }
  else if exp_type = "part time" then { s with part_time := s.part_time + months }
  else if exp_type = "free lance" then { s with freelance := s.freelance + months }
  else { s with apprentice := s.apprentice + 0.5 * months }

/-- Output record of `compute_experience_breakdown` (source lines 172-179). -/
structure ExpBreakdown where
  internship_years : ℚ
  apprentice_years : ℚ
  industry_years : ℚ
  part_time_years : ℚ
  freelance_years : ℚ
  effective_years : ℚ

/-- Embedding of `compute_experience_breakdown` (source lines 129-179) on the
candidate's experience list. -/
def compute_experience_breakdown (experiences : List ExpRecord) : ExpBreakdown :=
  let b := experiences.foldl bucketStep ⟨0, 0, 0, 0, 0⟩
  let internship_years := b.internship / 12
  let apprentice_years := b.apprentice / 12
  let industry_years := b.industry / 12
  let part_time_years := b.part_time / 12
  let freelance_years := b.freelance / 12
  let effective_years :=
      industry_years
    + 0.5 * internship_years
    + 0.6 * apprentice_years
    + 0.4 * part_time_years
    + 0.7 * freelance_years
  ⟨roundTo 2 internship_years, roundTo 2 apprentice_years,
   roundTo 2 industry_years, roundTo 2 part_time_years,
   roundTo 2 freelance_years, roundTo 2 effective_years⟩

/-- Claim-side: total months whose lower-cased type equals `cat`. -/
def catMonths (cat : String) : List ExpRecord → ℚ
  | [] => 0
  | e :: t => (if strLower e.type_ = cat then e.duration_months else 0) + catMonths cat t

/-- Claim-side: is the lower-cased type one of the five recognized categories? -/
def recognizedType (t : String) : Prop :=
  t = "internship" ∨ t = "apprentice" ∨ t = "full time" ∨
  t = "part time" ∨ t = "free lance"

instance (t : String) : Decidable (recognizedType t) := by
  unfold recognizedType; infer_instance

/-- Claim-side: half-weighted months of the records with unrecognized type. -/
def otherHalfMonths : List ExpRecord → ℚ
  | [] => 0
  | e :: t =>
    (if recognizedType (strLower e.type_) then 0 else 0.5 * e.duration_months)
    + otherHalfMonths t

/-- Claim-side closed form for `effective_years`: per-category month sums,
unrecognized records contributing half their months to the apprentice bucket,
each bucket divided by 12, weighted 1.0/0.5/0.6/0.4/0.7, rounded to 2. -/
def effectiveYearsSpec (exps : List ExpRecord) : ℚ :=
  roundTo 2 (
      (catMonths "full time" exps / 12) * 1.0
    + 0.5 * (catMonths "internship" exps / 12)
    + 0.6 * ((catMonths "apprentice" exps + otherHalfMonths exps) / 12)
    + 0.4 * (catMonths "part time" exps / 12)
    + 0.7 * (catMonths "free lance" exps / 12))

/-- Closed form of one loop iteration, phrased with the claim-side
per-category increments. -/
theorem bucketStep_closed (s : Buckets) (e : ExpRecord) :
    bucketStep s e =
      ⟨s.internship + (if strLower e.type_ = "internship" then e.duration_months else 0),
       s.apprentice + (if strLower e.type_ = "apprentice" then e.duration_months else 0)
         + (if recognizedType (strLower e.type_) then 0 else 0.5 * e.duration_months),
       s.industry + (if strLower e.type_ = "full time" then e.duration_months else 0),
       s.part_time + (if strLower e.type_ = "part time" then e.duration_months else 0),
       s.freelance + (if strLower e.type_ = "free lance" then e.duration_months else 0)⟩ := by
  unfold bucketStep recognizedType
  by_cases h1 : strLower e.type_ = "internship"
  · simp [h1]
  · by_cases h2 : strLower e.type_ = "apprentice"
    · simp [h1, h2]
    · by_cases h3 : strLower e.type_ = "full time"
      · simp [h1, h2, h3]
      · by_cases h4 : strLower e.type_ = "part time"
        · simp [h1, h2, h3, h4]
        · by_cases h5 : strLower e.type_ = "free lance"
          · simp [h1, h2, h3, h4, h5]
          · simp [h1, h2, h3, h4, h5]

/-- The loop accumulates exactly the claim-side per-category sums. -/
theorem foldl_bucketStep (exps : List ExpRecord) (s : Buckets) :
    exps.foldl bucketStep s =
      ⟨s.internship + catMonths "internship" exps,
       s.apprentice + catMonths "apprentice" exps + otherHalfMonths exps,
       s.industry + catMonths "full time" exps,
       s.part_time + catMonths "part time" exps,
       s.freelance + catMonths "free lance" exps⟩ := by
  induction exps generalizing s with
  | nil => simp [catMonths, otherHalfMonths]
  | cons e t ih =>
    rw [List.foldl_cons, ih, bucketStep_closed]
    simp only [catMonths, otherHalfMonths]
    congr 1 <;> ring

/-- Values produced by `json.loads`: the JSON data model. -/
inductive Json where
  | null : Json
  | bool : Bool → Json
  | num : ℚ → Json
  | str : String → Json
  | arr : List Json → Json
  | obj : List (String × Json) → Json

/-- First binding of a key in a JSON object (`d[k]` / the hit side of `d.get`). -/
def objGet (fields : List (String × Json)) (k : String) : Option Json :=
  match fields with
  | [] => none
  | (k₀, v) :: rest => if k₀ = k then some v else objGet rest k

/-- Python `k in d` for a JSON object. -/
def hasKey (fields : List (String × Json)) (k : String) : Bool :=
  (objGet fields k).isSome

/-- Python `d[k] = v` on a JSON object: replace the binding if the key is
present, append it otherwise. -/
def setKey (fields : List (String × Json)) (k : String) (v : Json) :
    List (String × Json) :=
  if hasKey fields k then
    fields.map (fun p => if p.1 = k then (k, v) else p)
  else fields ++ [(k, v)]

/-- Source lines 303-304: `skill_match = skill_match[0] if skill_match else {}`
applied when the grader result is a sequence. -/
def collapseGraderResult (j : Json) : Json :=
  match j with
  | Json.arr [] => Json.obj []
  | Json.arr (x :: _) => x
  | _ => j

/-- Source lines 302-306: collapse a sequence-shaped grader result, then read
`final_skill_match_score` with `.get`, defaulting to `0`.  `.get` exists only
on objects; on any other value Python raises `AttributeError`, modelled by
`none`.  On success the pair is (preserved raw object, extracted score). -/
def extractSkillScore (j : Json) : Option (Json × Json) :=
  match collapseGraderResult j with
  | Json.obj fields =>
    some (Json.obj fields, (objGet fields "final_skill_match_score").getD (Json.num 0))
  | _ => none

/-- Source lines 309-313: the final-score combination of
`candidate_job_matching`. -/
def combine (experience_score education_score skill_score : ℚ) : ℚ :=
  0.20 * experience_score + 0.10 * education_score + 0.70 * skill_score

/-- Source lines 205-208 and 238-241: the record substituted when the model
response fails to parse as JSON. -/
def degradeRecord (raw : String) : Json :=
  Json.obj [("error", Json.str "Invalid JSON returned"),
            ("raw_output", Json.str raw)]

/-- Source lines 202-208 / 235-241: `json.loads` inside `try/except`.  The
argument `parsed` is the outcome of `json.loads` on the response text `raw`
(`none` = the parse raised). -/
def loadsOrDegrade (parsed : Option Json) (raw : String) : Json :=
  match parsed with
  | some j => j
  | none => degradeRecord raw

/-- The `links_info` fields read by `candidate_info_extraction`
(source lines 210-217): the `profile_info` mapping and the `projects` list. -/
structure LinksInfo where
  profile_info : List (String × String)
  projects : List String

/-- Python `d.get(k, default)` on a string-valued mapping. -/
def lookupD (l : List (String × String)) (k dflt : String) : String :=
  match l with
  | [] => dflt
  | (k₀, v) :: rest => if k₀ = k then v else lookupD rest k dflt

/-- Source lines 211-217: overwrite the contact sub-record from the extracted
links. -/
def mergedContact (links : LinksInfo) (contact : List (String × Json)) :
    List (String × Json) :=
  let profile := links.profile_info
  let projects := links.projects
  let c₁ := setKey contact "email" (Json.str (lookupD profile "mail" ""))
  let c₂ := setKey c₁ "phone" (Json.str (lookupD profile "contact" ""))
  let c₃ := setKey c₂ "linkedin" (Json.str (lookupD profile "linkedin" ""))
  let c₄ := setKey c₃ "github" (Json.str (projects.getD 0 ""))
  let c₅ := setKey c₄ "portfolio" (Json.str (projects.getD 1 ""))
  setKey c₅ "other_links" (Json.arr (projects.map Json.str))

/-- Source lines 209-218: the post-parse step of `candidate_info_extraction`.
`parsed["contact"][...] = ...` raises unless `parsed["contact"]` is an
object, modelled by `none`. -/
def candidate_postprocess (links : LinksInfo) (parsed : Json) : Option Json :=
  match parsed with
  | Json.obj fields =>
    if hasKey fields "contact" then
      match objGet fields "contact" with
      | some (Json.obj contact) =>
        some (Json.obj (setKey fields "contact"
          (Json.obj (mergedContact links contact))))
      | _ => none
    else some (Json.obj fields)
  | j => some j

/-- Embedding of the `candidate_info_extraction` node (source lines 184-218)
from the parse outcome of the model response onward. -/
def candidate_info_extraction (parsed : Option Json) (raw : String)
    (links : LinksInfo) : Option Json :=
  candidate_postprocess links (loadsOrDegrade parsed raw)

/-- Embedding of the `job_desc_extraction` node (source lines 223-242) from
the parse outcome of the model response onward. -/
def job_desc_extraction (parsed : Option Json) (raw : String) : Json :=
  loadsOrDegrade parsed raw

/-- Claim-side: the first maximal run of digit characters in a string. -/
def firstRun (cs : List Char) : List Char :=
  (cs.dropWhile (fun c => !c.isDigit)).takeWhile Char.isDigit

/-- Claim-side: number of maximal digit runs; the flag records whether the
scan is currently inside a run. -/
def countRuns : Bool → List Char → ℕ
  | _, [] => 0
  | true, c :: rest =>
    if c.isDigit then countRuns true rest else countRuns false rest
  | false, c :: rest =>
    if c.isDigit then 1 + countRuns true rest else countRuns false rest

/-- Claim-side rendering of the C4 parsing rule: the required year count is
read from the FIRST run of digit characters; an empty or digit-free
requirement yields 1.0; thresholds as in the source. -/
def experience_match_first_run (candidate_exp_years : ℚ) (jd_exp : String) : ℚ :=
  if jd_exp = "" then 1
  else if firstRun jd_exp.data = [] then 1
  else if (natOfDigits (firstRun jd_exp.data) : ℚ) ≤ candidate_exp_years then 1
  else if (natOfDigits (firstRun jd_exp.data) : ℚ) - 1 ≤ candidate_exp_years then 0.6
  else 0.2

theorem countRuns_false_zero (cs : List Char) (h : countRuns false cs = 0) :
    cs.filter Char.isDigit = [] := by
  induction cs with
  | nil => rfl
  | cons c t ih =>
    unfold countRuns at h
    cases hd : c.isDigit with
    | false => rw [hd] at h; simp only [Bool.false_eq_true, if_false] at h
               simp [hd, ih h]
    | true => rw [hd] at h; simp at h

theorem countRuns_true_zero (cs : List Char) (h : countRuns true cs = 0) :
    cs.filter Char.isDigit = cs.takeWhile Char.isDigit := by
  induction cs with
  | nil => rfl
  | cons c t ih =>
    unfold countRuns at h
    cases hd : c.isDigit with
    | false =>
      rw [hd] at h; simp only [Bool.false_eq_true, if_false] at h
      simp [hd, countRuns_false_zero t h]
    | true =>
      rw [hd] at h; simp only [if_true] at h
      simp only [List.filter_cons, List.takeWhile_cons, hd, if_true]
      simp [ih h]

theorem countRuns_one_filter_eq_firstRun (cs : List Char)
    (h : countRuns false cs = 1) :
    cs.filter Char.isDigit = firstRun cs := by
  induction cs with
  | nil => simp [countRuns] at h
  | cons c t ih =>
    unfold countRuns at h
    cases hd : c.isDigit with
    | false =>
      rw [hd] at h; simp only [Bool.false_eq_true, if_false] at h
      unfold firstRun
      simp only [List.dropWhile_cons, hd, Bool.not_false, if_true]
      simpa [hd] using ih h
    | true =>
      rw [hd] at h; simp only [if_true] at h
      have h0 : countRuns true t = 0 := by omega
      unfold firstRun
      simp only [List.dropWhile_cons, hd, Bool.not_true, Bool.false_eq_true,
        if_false, List.takeWhile_cons, List.filter_cons]
      simp [hd, countRuns_true_zero t h0]

theorem filter_nil_countRuns_zero (cs : List Char)
    (h : cs.filter Char.isDigit = []) : countRuns false cs = 0 := by
  induction cs with
  | nil => rfl
  | cons c t ih =>
    rw [List.filter_cons] at h
    cases hd : c.isDigit with
    | false =>
      rw [hd] at h; simp only [Bool.false_eq_true, if_false] at h
      unfold countRuns
      rw [hd]; simp only [Bool.false_eq_true, if_false]
      exact ih h
    | true => rw [hd] at h; simp at h

/-- Claim-side level score of C2, in the claim's words: 1.0 on equal
normalized levels, 1.0 for master vs bachelor, 0.6 for bachelor vs master,
0.5 for diploma vs bachelor, 0.4 for any other mismatch. -/
def levelScoreSpec (cand_level jd_level : String) : ℚ :=
  if cand_level = jd_level then 1
  else if cand_level = "master" ∧ jd_level = "bachelor" then 1
  else if cand_level = "bachelor" ∧ jd_level = "master" then 0.6
  else if cand_level = "diploma" ∧ jd_level = "bachelor" then 0.5
  else 0.4

/-- C1: the score combiner returns 0.20·experience + 0.10·education +
0.70·skill, with the fixed weights summing to 1; combine(1,1,0) = 0.30 and
combine(1,1,1) = 1, in exact rational arithmetic. -/
theorem c1_score_combiner :
    (∀ e d s : ℚ, combine e d s = 0.20 * e + 0.10 * d + 0.70 * s) ∧
    ((0.20 : ℚ) + 0.10 + 0.70 = 1) ∧
    combine 1 1 0 = 0.30 ∧ combine 1 1 1 = 1 :=
  ⟨fun _ _ _ => rfl, by norm_num, by norm_num [combine], by norm_num [combine]⟩

/-- C2: for a non-empty job requirement, `degree_match` returns
round(0.7·levelScore + 0.3·fieldRelevance, 3) with the level score of the
claim's case table; degree_match("B.Tech","Computer Science","Bachelor") =
0.97. -/
theorem c2_degree_match_formula :
    (∀ cd cs jd, jd ≠ "" →
      degree_match cd cs jd =
        roundTo 3 (0.7 * levelScoreSpec (normalize_degree cd) (normalize_degree jd)
          + 0.3 * compute_field_relevance cs jd)) ∧
    degree_match "B.Tech" "Computer Science" "Bachelor" = 0.97 := by
  constructor
  · intro cd cs jd hjd
    unfold degree_match
    rw [if_neg hjd]
    rfl
  · have h1 : normalize_degree "B.Tech" = "bachelor" := by decide
    have h2 : normalize_degree "Bachelor" = "bachelor" := by decide
    unfold degree_match compute_field_relevance
    rw [if_neg (by decide : ¬ ("Bachelor" = ""))]
    rw [h1, h2]
    rw [if_neg (by decide : ¬ ("Bachelor" = "" ∨ strStrip "Bachelor" = ""))]
    rw [if_pos (by decide : (RELEVANT_FIELDS.any fun term =>
      strIn term (strLower "Computer Science")) = true)]
    norm_num [level_score_of, roundTo, roundHalfEven]

/-- Witness for C2: the formula instantiated at ("B.Tech", "Computer
Science", "Bachelor"). -/
theorem c2_degree_match_formula_witness :
    degree_match "B.Tech" "Computer Science" "Bachelor" =
      roundTo 3 (0.7 * levelScoreSpec (normalize_degree "B.Tech")
          (normalize_degree "Bachelor")
        + 0.3 * compute_field_relevance "Computer Science" "Bachelor") :=
  c2_degree_match_formula.1 "B.Tech" "Computer Science" "Bachelor" (by decide)

/-- C6: an empty experience requirement makes `experience_match` return
exactly 1.0 and an empty education requirement makes `degree_match` return
exactly 1.0, regardless of all other arguments. -/
theorem c6_empty_requirements_no_penalty :
    (∀ y : ℚ, experience_match y "" = 1) ∧
    (∀ cd cs, degree_match cd cs "" = 1) :=
  ⟨fun _ => rfl, fun _ _ => rfl⟩

/-- C10: `normalize_degree` tests the synonym lists in the fixed order
bachelor, master, phd, diploma and returns the category of the first list
containing a substring of the lower-cased input; hence "Bachelor and PhD"
normalizes to "bachelor", and "Doctor of Medicine" (which contains the
master synonym "me" inside "Medicine") normalizes to "master", not "phd". -/
theorem c10_normalize_degree_order :
    (∀ t, t ≠ "" → (bachelorSyns.any fun x => strIn x (strLower t)) = true →
      normalize_degree t = "bachelor") ∧
    (∀ t, t ≠ "" → (bachelorSyns.any fun x => strIn x (strLower t)) = false →
      (masterSyns.any fun x => strIn x (strLower t)) = true →
      normalize_degree t = "master") ∧
    normalize_degree "Bachelor and PhD" = "bachelor" ∧
    normalize_degree "Doctor of Medicine" = "master" := by
  refine ⟨?_, ?_, by decide, by decide⟩
  · intro t h1 h2
    unfold normalize_degree
    rw [if_neg h1]
    simp only [h2, if_true]
  · intro t h1 h2 h3
    unfold normalize_degree
    rw [if_neg h1]
    simp only [h2, h3, Bool.false_eq_true, if_false, if_true]

/-- Witness for C10: the order property applied to "Doctor of Medicine". -/
theorem c10_normalize_degree_order_witness :
    normalize_degree "Doctor of Medicine" = "master" :=
  c10_normalize_degree_order.2.1 "Doctor of Medicine" (by decide) (by decide)
    (by decide)

/-- C4 counterexample: on "2-4 years" the code concatenates ALL digit runs
(required = 24), so with 3 effective years it returns 0.2, while the claim's
first-run rule (required = 2) would return 1.0. -/
theorem c4_counterexample_two_runs :
    experience_match_first_run 3 "2-4 years" = 1 ∧
    experience_match 3 "2-4 years" = 0.2 := by
  constructor
  · have h : natOfDigits (firstRun ("2-4 years").data) = 2 := by decide
    unfold experience_match_first_run
    rw [if_neg (by decide : ¬ ("2-4 years" = ""))]
    rw [if_neg (by decide : ¬ (firstRun ("2-4 years").data = []))]
    rw [h]
    norm_num
  · have h : parseIntDigits "2-4 years" = some 24 := by decide
    unfold experience_match
    rw [if_neg (by decide : ¬ ("2-4 years" = "")), h]
    norm_num

/-- Closed form of `experience_match`: the required count is the number read
from the concatenation of all digit characters of the requirement. -/
theorem experience_match_closed_form (y : ℚ) (s : String) :
    experience_match y s =
      if s.data.filter Char.isDigit = [] then 1
      else if (natOfDigits (s.data.filter Char.isDigit) : ℚ) ≤ y then 1
      else if (natOfDigits (s.data.filter Char.isDigit) : ℚ) - 1 ≤ y then 0.6
      else 0.2 := by
  unfold experience_match parseIntDigits
  by_cases hs : s = ""
  · subst hs
    rw [if_pos rfl, if_pos (show ("" : String).data.filter Char.isDigit = [] from rfl)]
  · rw [if_neg hs]
    by_cases hd : s.data.filter Char.isDigit = []
    · simp [hd]
    · simp [hd]

/-- C4 amended: `experience_match` determines the required year count by
concatenating ALL digit characters of the requirement string (every run, in
order), and returns 1.0 when the string is empty or contains no digits. -/
theorem c4_required_is_all_digits :
    ∀ (y : ℚ) (s : String),
      experience_match y s =
        if s.data.filter Char.isDigit = [] then 1
        else if (natOfDigits (s.data.filter Char.isDigit) : ℚ) ≤ y then 1
        else if (natOfDigits (s.data.filter Char.isDigit) : ℚ) - 1 ≤ y then 0.6
        else 0.2 :=
  experience_match_closed_form

/-- C5: when the requirement string has exactly one run of digits denoting R,
`experience_match` returns 1.0 for effectiveYears ≥ R, 0.6 on the one-year
near-miss band R−1 ≤ effectiveYears < R, and 0.2 below it. -/
theorem c5_single_run_thresholds :
    ∀ (y : ℚ) (s : String), countRuns false s.data = 1 →
      experience_match y s =
        if (natOfDigits (firstRun s.data) : ℚ) ≤ y then 1
        else if (natOfDigits (firstRun s.data) : ℚ) - 1 ≤ y then 0.6
        else 0.2 := by
  intro y s h
  have hfr : s.data.filter Char.isDigit = firstRun s.data :=
    countRuns_one_filter_eq_firstRun s.data h
  have hne : ¬ (s.data.filter Char.isDigit = []) := by
    intro h0
    rw [filter_nil_countRuns_zero s.data h0] at h
    exact absurd h (by norm_num)
  rw [experience_match_closed_form y s, if_neg hne, hfr]

/-- Witness for C5: the thresholds instantiated at (5, "3+ years required"),
where the single digit run denotes 3. -/
theorem c5_single_run_thresholds_witness :
    experience_match 5 "3+ years required" =
      if (natOfDigits (firstRun ("3+ years required").data) : ℚ) ≤ 5 then 1
      else if (natOfDigits (firstRun ("3+ years required").data) : ℚ) - 1 ≤ 5
        then 0.6
      else 0.2 :=
  c5_single_run_thresholds 5 "3+ years required" (by decide)

theorem level_score_of_cases (a b : String) :
    level_score_of a b = 1 ∨ level_score_of a b = 0.6 ∨
    level_score_of a b = 0.5 ∨ level_score_of a b = 0.4 := by
  unfold level_score_of
  split_ifs <;> norm_num

theorem compute_field_relevance_cases (cs jd : String) :
    compute_field_relevance cs jd = 1 ∨ compute_field_relevance cs jd = 0.9 ∨
    compute_field_relevance cs jd = 0.5 := by
  unfold compute_field_relevance
  split_ifs <;> norm_num

theorem compute_field_relevance_cases_nonblank (cs jd : String)
    (h : strStrip jd ≠ "") :
    compute_field_relevance cs jd = 0.9 ∨ compute_field_relevance cs jd = 0.5 := by
  unfold compute_field_relevance
  rw [if_neg ?_]
  · split_ifs <;> norm_num
  · rintro (rfl | h2)
    · exact h rfl
    · exact h h2

/-- C7 counterexample: with an empty job education requirement the education
sub-score is exactly 1.0, which is outside the claimed interval [0, 0.97]. -/
theorem c7_counterexample_empty_requirement :
    degree_match "B.Tech" "Computer Science" "" = 1 ∧
    ¬ (degree_match "B.Tech" "Computer Science" "" ≤ 0.97) := by
  have h : degree_match "B.Tech" "Computer Science" "" = 1 := rfl
  exact ⟨h, by rw [h]; norm_num⟩

/-- C7 amended: the education sub-score always lies in [0, 1]; it lies in
[0, 0.97] whenever the job requirement string is non-blank (non-empty after
stripping whitespace); and with an empty requirement it is exactly 1.0. -/
theorem c7_education_score_bounds :
    ∀ cd cs jd,
      (0 ≤ degree_match cd cs jd ∧ degree_match cd cs jd ≤ 1) ∧
      (strStrip jd ≠ "" → degree_match cd cs jd ≤ 0.97) ∧
      (jd = "" → degree_match cd cs jd = 1) := by
  intro cd cs jd
  by_cases hjd : jd = ""
  · subst hjd
    refine ⟨⟨?_, ?_⟩, ?_, fun _ => rfl⟩
    · rw [(show degree_match cd cs "" = 1 from rfl)]
      norm_num
    · rw [(show degree_match cd cs "" = 1 from rfl)]
    · intro h
      exact absurd rfl h
  · have hdm : degree_match cd cs jd =
        roundTo 3 (0.7 * level_score_of (normalize_degree cd) (normalize_degree jd)
          + 0.3 * compute_field_relevance cs jd) := by
      unfold degree_match
      rw [if_neg hjd]
    refine ⟨?_, ?_, fun h => absurd h hjd⟩
    · rw [hdm]
      rcases level_score_of_cases (normalize_degree cd) (normalize_degree jd)
          with hL | hL | hL | hL <;>
        rcases compute_field_relevance_cases cs jd with hF | hF | hF <;>
          rw [hL, hF] <;> norm_num [roundTo, roundHalfEven]
    · intro h
      rw [hdm]
      rcases level_score_of_cases (normalize_degree cd) (normalize_degree jd)
          with hL | hL | hL | hL <;>
        rcases compute_field_relevance_cases_nonblank cs jd h with hF | hF <;>
          rw [hL, hF] <;> norm_num [roundTo, roundHalfEven]

/-- Witness for C7 (amended): the 0.97 bound at a concrete non-blank
requirement. -/
theorem c7_education_score_bounds_witness :
    degree_match "B.Tech" "Computer Science" "Bachelor" ≤ 0.97 :=
  (c7_education_score_bounds "B.Tech" "Computer Science" "Bachelor").2.1 (by decide)

/-- Grader-result shapes on which the extraction step of
`candidate_job_matching` does not raise: an object, an empty sequence, or a
sequence whose first element is an object. -/
def toleratedGraderResult (j : Json) : Bool :=
  match j with
  | Json.obj _ => true
  | Json.arr [] => true
  | Json.arr (Json.obj _ :: _) => true
  | _ => false

/-- C8 counterexample: a well-formed JSON grader result that is a plain
string makes the extraction raise (`skill_match.get` on a non-object),
modelled by `none`; so the tolerance does NOT hold for every well-formed
JSON result. -/
theorem c8_counterexample_scalar_result :
    extractSkillScore (Json.str "not an object") = none := rfl

/-- C8 amended: the extraction succeeds exactly on the tolerated shapes —
it succeeds on every object, on the empty sequence (yielding score 0 with
the empty object preserved), and on any sequence whose first element is an
object, with `final_skill_match_score` defaulting to 0 when absent; on
every other well-formed JSON shape (a scalar, or a sequence whose first
element is not an object) it raises. -/
theorem c8_skill_extraction_tolerance :
    (∀ j, (extractSkillScore j).isSome = toleratedGraderResult j) ∧
    extractSkillScore (Json.arr []) = some (Json.obj [], Json.num 0) ∧
    (∀ fields, objGet fields "final_skill_match_score" = none →
      extractSkillScore (Json.obj fields) = some (Json.obj fields, Json.num 0)) := by
  refine ⟨?_, rfl, ?_⟩
  · intro j
    cases j with
    | obj fields => rfl
    | arr xs =>
      cases xs with
      | nil => rfl
      | cons x rest => cases x <;> rfl
    | null => rfl
    | bool b => rfl
    | num q => rfl
    | str s => rfl
  · intro fields h
    simp [extractSkillScore, collapseGraderResult, h]

/-- Witness for C8 (amended): the score defaults to 0 on a concrete object
without a `final_skill_match_score` key. -/
theorem c8_skill_extraction_tolerance_witness :
    extractSkillScore (Json.obj [("other", Json.null)]) =
      some (Json.obj [("other", Json.null)], Json.num 0) :=
  c8_skill_extraction_tolerance.2.2 [("other", Json.null)] rfl

/-- C9: when the model response fails to parse as JSON (`parsed = none`),
both extraction stages substitute the record
`{error: "Invalid JSON returned", raw_output: <original text>}` without
raising, and the candidate stage's contact-merge leaves the degraded record
untouched (it has no "contact" key), so the pipeline continues with it. -/
theorem c9_parse_failure_degrades :
    ∀ (raw : String) (links : LinksInfo),
      candidate_info_extraction none raw links = some (degradeRecord raw) ∧
      job_desc_extraction none raw = degradeRecord raw :=
  fun _ _ => ⟨rfl, rfl⟩

/-- C3: `effective_years` equals the claim's closed form — per-category month
sums (case-insensitive on the five recognized type strings), unrecognized
records adding half their months to the apprentice bucket, buckets divided by
12 and weighted 1.0/0.5/0.6/0.4/0.7, rounded to 2 decimals; in particular
24 months full time + 6 months internship give 2.25 effective years. -/
theorem c3_experience_aggregation :
    (∀ exps : List ExpRecord,
      (compute_experience_breakdown exps).effective_years = effectiveYearsSpec exps) ∧
    (compute_experience_breakdown
      [⟨"full time", 24⟩, ⟨"internship", 6⟩]).effective_years = 2.25 := by
  have hmain : ∀ exps : List ExpRecord,
      (compute_experience_breakdown exps).effective_years = effectiveYearsSpec exps := by
    intro exps
    unfold compute_experience_breakdown effectiveYearsSpec
    simp only [foldl_bucketStep]
    congr 1
    ring
  refine ⟨hmain, ?_⟩
  rw [hmain]
  have h1 : strLower "full time" = "full time" := by decide
  have h2 : strLower "internship" = "internship" := by decide
  have hr1 : recognizedType "full time" := by decide
  have hr2 : recognizedType "internship" := by decide
  simp +decide only [effectiveYearsSpec, catMonths, otherHalfMonths, h1, h2,
    if_pos hr1, if_pos hr2]
  norm_num [roundTo, roundHalfEven]

end ResumeParser
